import Mathlib

/-!
Verification development for the ncsc-csaf-harvester repository.

The Python sources (dedupe.py, notify_ncsc.py, scraper.py, notifiers/teams.py)
are shallowly embedded below.  Rows read from the daily CSV are string-keyed
field maps, modelled as association lists of strings.  The sha256 hexdigest
from Python's hashlib is an external collaborator and is modelled as an
explicit function parameter hs passed to every definition that hashes.
Machine time (time.time) is an explicit Int parameter.  The persisted cache
file is passed in and returned explicitly; the outbound transport
(requests.post) is modelled by a TransportResult input describing what the
call would do.
-/

set_option maxRecDepth 4000

/-- Python str whitespace characters (string.whitespace). -/
def isPySpace (c : Char) : Bool :=
  c = ' ' || c = '\t' || c = '\n' || c = '\r' || c = '\x0b' || c = '\x0c'

/-- Python str.strip(): drop leading and trailing whitespace. -/
def pyStrip (s : String) : String :=
  String.mk (((s.data.dropWhile isPySpace).reverse.dropWhile isPySpace).reverse)

/-- Python str.rstrip(): drop trailing whitespace. -/
def pyRstrip (s : String) : String :=
  String.mk ((s.data.reverse.dropWhile isPySpace).reverse)

/-- Python s[:n] slicing on str (counts code points, as Lean Char does). -/
def pyTake (s : String) (n : Nat) : String :=
  String.mk (s.data.take n)

/-- Python len() on str (counts code points). -/
def pyLen (s : String) : Nat :=
  s.data.length

/-- Python `x or d` for a string x (empty string is falsy). A missing dict
value (None) is modelled as the empty string by the callers. -/
def pyOr (v d : String) : String :=
  if v = "" then d else v

/-- A CSV row / advisory record: a string-keyed field map (csv.DictReader). -/
def Row : Type := List (String × String)

instance : DecidableEq Row := by
  unfold Row
  infer_instance

/-- Python dict lookup row.get(k) (first binding wins, keys are unique in a
real dict). -/
def rowGet (r : Row) (k : String) : Option String :=
  match r with
  | [] => none
  | (k', v) :: rest => if k' = k then some v else rowGet rest k

/-- Python row.get(k, d). -/
def rowGetD (r : Row) (k : String) (d : String) : String :=
  (rowGet r k).getD d

/-- Case-insensitive literal prefix test over ASCII patterns. -/
def startsWithCI : List Char → List Char → Bool
  | [], _ => true
  | _ :: _, [] => false
  | p :: ps, t :: ts => p.toLower = t.toLower && startsWithCI ps ts

/-- re.search of a literal pattern, case-insensitive: does the pattern occur
at some position of the text? -/
def searchCI (pat : List Char) : List Char → Bool
  | [] => startsWithCI pat []
  | t :: ts => startsWithCI pat (t :: ts) || searchCI pat ts

/-- SEV_RE.search from notify_ncsc.py and scraper.py, as a boolean.
SEV_RE = (\[?(H/H|M/H|H/M)\]?|High/High|Med/High|High/Med), IGNORECASE.
Both brackets in the first alternative are optional, so that alternative
matches somewhere iff one of the three bare codes occurs somewhere (a
leading bracket match just shifts the core one position right, which the
position scan also visits); re.search succeeds iff some alternative matches
at some position. -/
def sevSearch (s : String) : Bool :=
  searchCI "H/H".data s.data || searchCI "M/H".data s.data || searchCI "H/M".data s.data ||
  searchCI "High/High".data s.data || searchCI "Med/High".data s.data ||
  searchCI "High/Med".data s.data

/-- filter_high_risk from notify_ncsc.py / scraper.py:
keep rows where SEV_RE.search((r.get("Severity") or "").strip()) succeeds. -/
def filter_high_risk (rows : List Row) : List Row :=
  rows.filter (fun r => sevSearch (pyStrip (rowGetD r "Severity" "")))

/-- Try to match ID_RE = (NCSC-\d{4}-\d{4}), IGNORECASE, at the head of the
text; on success return the match already uppercased (group(1).upper()). -/
def idMatchAt : List Char → Option String
  | c0 :: c1 :: c2 :: c3 :: c4 :: d1 :: d2 :: d3 :: d4 :: c5 :: e1 :: e2 :: e3 :: e4 :: _ =>
    if c0.toLower = 'n' && c1.toLower = 'c' && c2.toLower = 's' && c3.toLower = 'c' &&
       c4 = '-' && d1.isDigit && d2.isDigit && d3.isDigit && d4.isDigit &&
       c5 = '-' && e1.isDigit && e2.isDigit && e3.isDigit && e4.isDigit then
      some (String.mk ['N', 'C', 'S', 'C', '-', d1, d2, d3, d4, '-', e1, e2, e3, e4])
    else
      none
  | _ => none

/-- Leftmost ID_RE.search over the character list. -/
def idSearchAux : List Char → Option String
  | [] => none
  | c :: rest =>
    match idMatchAt (c :: rest) with
    | some s => some s
    | none => idSearchAux rest

/-- ID_RE.search(s) with group(1).upper() applied, from dedupe.py. -/
def idSearch (s : String) : Option String :=
  idSearchAux s.data

/-- Tier 1 of advisory_key (dedupe.py): first candidate field that is present
with a truthy (non-empty) value; its value is returned stripped.  A present
but empty field does not stop the scan. -/
def firstTruthyField (r : Row) : List String → Option String
  | [] => none
  | f :: fs =>
    match rowGet r f with
    | some v => if v = "" then firstTruthyField r fs else some v
    | none => firstTruthyField r fs

/-- Tier-1 candidate field names, in source order. -/
def directKeyFields : List String :=
  ["AdvisoryID", "TrackingID", "ID", "CsafID", "Tracking.Id", "tracking.id"]

/-- Tier 1 result: str(row[field]).strip() of the first truthy candidate. -/
def directKey (r : Row) : Option String :=
  (firstTruthyField r directKeyFields).map pyStrip

/-- Tier 2 of advisory_key: scan Description/Title/Naam/Name, and for each
truthy field run ID_RE.search; the first field whose value matches wins
(a truthy field without a match falls through to the next field). -/
def patternKeyGo (r : Row) : List String → Option String
  | [] => none
  | f :: fs =>
    match rowGet r f with
    | some v =>
      if v = "" then patternKeyGo r fs
      else
        match idSearch v with
        | some k => some k
        | none => patternKeyGo r fs
    | none => patternKeyGo r fs

/-- Tier 2 result over fields ("Description", "Title", "Naam", "Name"). -/
def patternKey (r : Row) : Option String :=
  patternKeyGo r ["Description", "Title", "Naam", "Name"]

/-- Tier-3 fallback signature (dedupe.py):
"|".join(str(row.get(k, "")).strip() for k in (Title, Description, Vendor,
Product, CVE, URL)).  The join of the six values is written out literally. -/
def signature (r : Row) : String :=
  pyStrip (rowGetD r "Title" "") ++ "|" ++ pyStrip (rowGetD r "Description" "") ++ "|" ++
  pyStrip (rowGetD r "Vendor" "") ++ "|" ++ pyStrip (rowGetD r "Product" "") ++ "|" ++
  pyStrip (rowGetD r "CVE" "") ++ "|" ++ pyStrip (rowGetD r "URL" "")

/-- advisory_key from dedupe.py.  hs models hashlib.sha256(...).hexdigest();
the code keeps its first 16 hex characters under a "HASH:" tag. -/
def advisory_key (hs : String → String) (r : Row) : Option String :=
  match directKey r with
  | some k => some k
  | none =>
    match patternKey r with
    | some k => some k
    | none =>
      if signature r = "" then none
      else some ("HASH:" ++ pyTake (hs (signature r)) 16)

/-- The key a record contributes to used_ids: its advisory_key when that is
truthy (Python `if not key` treats both None and "" as no key). -/
def truthyKey (hs : String → String) (r : Row) : Option String :=
  match advisory_key hs r with
  | none => none
  | some k => if k = "" then none else some k

/-- Python dict lookup on the advisory_ids map (first binding wins). -/
def dictGet (d : List (String × Int)) (k : String) : Option Int :=
  match d with
  | [] => none
  | (k', v) :: rest => if k' = k then some v else dictGet rest k

/-- Python dict assignment d[k] = v: update in place, else append. -/
def dictSet (d : List (String × Int)) (k : String) (v : Int) : List (String × Int) :=
  match d with
  | [] => [(k, v)]
  | (k', v') :: rest => if k' = k then (k, v) :: rest else (k', v') :: dictSet rest k v

/-- The persisted dedupe cache document (output/sent_cache.json), in its
well-formed shape: {advisory_ids, last_message_hash, version}. -/
structure Cache where
  advisory_ids : List (String × Int)
  last_message_hash : Option String
  version : Int
deriving DecidableEq, Repr

/-- CACHE_TTL_DAYS from dedupe.py. -/
def CACHE_TTL_DAYS : Int := 30

/-- save_cache from dedupe.py: before writing, keep only entries whose
timestamp v satisfies v >= now - CACHE_TTL_DAYS * 86400. -/
def save_cache (now : Int) (cache : Cache) : Cache :=
  { cache with
    advisory_ids := cache.advisory_ids.filter (fun kv => decide (now - CACHE_TTL_DAYS * 86400 ≤ kv.2)) }

/-- mark_sent from dedupe.py: stamp each truthy key with the current
timestamp, record the digest of the sent message, then save (pruning). -/
def mark_sent (hs : String → String) (now : Int) (used_ids : List String)
    (message_text : String) (cache : Cache) : Cache :=
  let ids := used_ids.foldl (fun d k => if k = "" then d else dictSet d k now) cache.advisory_ids
  save_cache now { advisory_ids := ids, last_message_hash := some (hs message_text), version := cache.version }

/-- is_same_message from dedupe.py: stored last_message_hash equals the
digest of the candidate message (None compares unequal to any digest). -/
def is_same_message (hs : String → String) (message_text : String) (cache : Cache) : Bool :=
  decide (cache.last_message_hash = some (hs message_text))

/-- Loop body of filter_new_advisories (dedupe.py): a row with a falsy key
is always kept as new; a row with truthy key k records k in used_ids and is
kept as new iff k is not in the advisory_ids map. -/
def filterNewGo (hs : String → String) (seen : List (String × Int)) :
    List Row → List Row × List String
  | [] => ([], [])
  | r :: rs =>
    let rest := filterNewGo hs seen rs
    match advisory_key hs r with
    | none => (r :: rest.1, rest.2)
    | some k =>
      if k = "" then (r :: rest.1, rest.2)
      else if (dictGet seen k).isSome then (rest.1, k :: rest.2)
      else (r :: rest.1, k :: rest.2)

/-- filter_new_advisories from dedupe.py, with the loaded cache explicit. -/
def filter_new_advisories (hs : String → String) (rows : List Row) (cache : Cache) :
    List Row × List String :=
  filterNewGo hs cache.advisory_ids rows

/-- Telegram credentials from the environment; os.getenv returning None and
an empty value are both falsy, and are both modelled as "". -/
structure TgConfig where
  token : String
  chatId : String
deriving DecidableEq, Repr

/-- Whether the configuration check `not TOKEN or not CHAT_ID` passes, i.e.
whether requests.post would actually be invoked. -/
def tgConfigured (cfg : TgConfig) : Bool :=
  !(cfg.token = "" || cfg.chatId = "")

/-- What the outbound requests.post call would do: return a response with a
status code and body text, or raise a transport exception. -/
inductive TransportResult where
  | resp (status : Int) (body : String)
  | exc (msg : String)
deriving DecidableEq, Repr

/-- send_to_telegram from notify_ncsc.py.  There is no try/except around
requests.post in this variant, so a transport exception escapes the
function; this is modelled by Except.error. -/
def notify_send_to_telegram (cfg : TgConfig) (tr : TransportResult) :
    Except String (Bool × String) :=
  if cfg.token = "" || cfg.chatId = "" then
    Except.ok (false, "Telegram not configured")
  else
    match tr with
    | TransportResult.resp s body =>
      if s = 200 then Except.ok (true, "ok")
      else Except.ok (false, "Telegram error " ++ toString s ++ ": " ++ body)
    | TransportResult.exc m => Except.error m

/-- send_to_telegram from scraper.py: the requests.post call sits inside
try/except, and an exception becomes the failure pair (False, "exception"). -/
def scraper_send_to_telegram (cfg : TgConfig) (tr : TransportResult) :
    Except String (Bool × String) :=
  if cfg.token = "" || cfg.chatId = "" then
    Except.ok (false, "no-config")
  else
    match tr with
    | TransportResult.resp s _ =>
      if s = 200 then Except.ok (true, "ok")
      else Except.ok (false, "status-" ++ toString s)
    | TransportResult.exc _ => Except.ok (false, "exception")

/-- Did a send call return the success pair (True, _)? -/
def sendSucceeded (r : Except String (Bool × String)) : Bool :=
  match r with
  | Except.ok (true, _) => true
  | _ => false

/-- Did a send call let an exception escape to the caller? -/
def isThrow (r : Except String (Bool × String)) : Bool :=
  match r with
  | Except.error _ => true
  | _ => false

/-- Teams notifier configuration (notifiers/teams.py): the ENABLE_TEAMS
environment value (default "true") and the webhook URL ("" when unset). -/
structure TeamsConfig where
  enabledVal : String
  webhook : String
deriving DecidableEq, Repr

/-- Lowercasing for the ENABLE_TEAMS check. -/
def pyLower (s : String) : String :=
  String.mk (s.data.map Char.toLower)

/-- os.getenv(enable_env_var, "true").lower() in ("1", "true", "yes", "on"). -/
def teamsEnabled (cfg : TeamsConfig) : Bool :=
  pyLower cfg.enabledVal = "1" || pyLower cfg.enabledVal = "true" ||
  pyLower cfg.enabledVal = "yes" || pyLower cfg.enabledVal = "on"

/-- Terminal outcome of send_to_teams: it returns None in all cases; the
constructors record which exit path ran.  There is no thrown outcome:
every attempt's non-200 response and every exception are caught. -/
inductive TeamsOutcome where
  | disabled
  | noWebhook
  | sent
  | gaveUp (lastErr : Option String)
deriving DecidableEq, Repr

/-- The retry loop of send_to_teams: one TransportResult per attempt (the
list length plays the role of max_retries).  A 200 response returns
immediately; a non-200 response and an exception both record last_err and
fall through to the next attempt. -/
def teamsLoop : List TransportResult → Option String → TeamsOutcome
  | [], lastErr => TeamsOutcome.gaveUp lastErr
  | TransportResult.resp s body :: rest, _ =>
    if s = 200 then TeamsOutcome.sent
    else teamsLoop rest (some ("HTTP " ++ toString s ++ ": " ++ pyTake body 300))
  | TransportResult.exc m :: rest, _ => teamsLoop rest (some m)

/-- send_to_teams from notifiers/teams.py (control flow and outcome; the
MessageCard payload construction does not influence the exit path and is
not modelled). -/
def send_to_teams (cfg : TeamsConfig) (attempts : List TransportResult) : TeamsOutcome :=
  if !(teamsEnabled cfg) then TeamsOutcome.disabled
  else if cfg.webhook = "" then TeamsOutcome.noWebhook
  else teamsLoop attempts none

/-- The fixed message header of build_urgent_message. -/
def urgentHeader : String := "🚨😡 <b>URGENT</b>\n\nDetails:\n"

/-- Per-bullet description truncation of build_urgent_message:
desc[:300].rstrip() + an ellipsis when longer than 300 characters. -/
def truncDesc (desc : String) : String :=
  if 300 < pyLen desc then pyRstrip (pyTake desc 300) ++ "…" else desc

/-- The bullet text of build_urgent_message before the optional link line. -/
def advisoryLineBase (sev desc : String) : String :=
  "• <b>[" ++ sev ++ "]</b> — " ++ truncDesc desc

/-- One bullet of build_urgent_message: description truncated to 300
characters with an ellipsis, optional hyperlink line. -/
def advisoryLine (sev desc url : String) : String :=
  if url = "" then advisoryLineBase sev desc
  else advisoryLineBase sev desc ++ "\n  🔗 <a href='" ++ url ++ "'>Bekijk advisory</a>"

/-- "\n".join(lines). -/
def joinNl : List String → String
  | [] => ""
  | [x] => x
  | x :: y :: xs => x ++ "\n" ++ joinNl (y :: xs)

/-- URL field chain of the notify_ncsc.py builder:
r.get("Link") or r.get("AdvisoryURL") or r.get("URL") or "". -/
def notifyUrl (r : Row) : String :=
  pyOr (rowGetD r "Link" "") (pyOr (rowGetD r "AdvisoryURL" "") (rowGetD r "URL" ""))

/-- The bullet for one row (shared by both builder variants up to the URL
chain): severity defaults to "?", description to "Onbekende melding". -/
def rowLine (url : Row → String) (r : Row) : String :=
  advisoryLine (pyOr (rowGetD r "Severity" "") "?")
    (pyOr (rowGetD r "Description" "") "Onbekende melding") (url r)

/-- header + "\n".join(lines) before the final cap, notify_ncsc.py variant. -/
def notifyComposed (rows : List Row) : String :=
  urgentHeader ++ joinNl (rows.map (rowLine notifyUrl))

/-- build_urgent_message from notify_ncsc.py: the composed text capped by
plain slicing [:3900]. -/
def notify_build_urgent_message (rows : List Row) : String :=
  pyTake (notifyComposed rows) 3900

/-- header + "\n".join(lines) before the final cap, scraper.py variant
(URL chain is r.get("Link") or ""). -/
def scraperComposed (rows : List Row) : String :=
  urgentHeader ++ joinNl (rows.map (rowLine (fun r => rowGetD r "Link" "")))

/-- build_urgent_message from scraper.py. -/
def scraper_build_urgent_message (rows : List Row) : String :=
  pyTake (scraperComposed rows) 3900

/-- Observable pipeline events of one run, in program order: the transport
call for the composed message (requests.post reached inside send), and the
cache commit (mark_sent reached). -/
inductive Event where
  | dispatch (text : String)
  | commit (keys : List String) (text : String)
deriving DecidableEq, Repr

/-- Exit of a run: a normal return code, or an uncaught exception. -/
inductive Outcome where
  | exited (code : Int)
  | crashed (msg : String)
deriving DecidableEq, Repr

/-- Result of one run: the persisted cache afterwards, the event trace, and
how the process ended. -/
structure RunResult where
  cache : Cache
  events : List Event
  outcome : Outcome
deriving DecidableEq, Repr

/-- Does the trace contain a commit event? -/
def hasCommitB (evs : List Event) : Bool :=
  evs.any (fun e => match e with | Event.commit _ _ => true | _ => false)

/-- Does the trace contain a dispatch event? -/
def hasDispatchB (evs : List Event) : Bool :=
  evs.any (fun e => match e with | Event.dispatch _ => true | _ => false)

/-- The key lists of all commit events of a trace, in order. -/
def commitKeys (evs : List Event) : List (List String) :=
  evs.filterMap (fun e => match e with | Event.commit ks _ => some ks | _ => none)

/-- rows_to_send of main: high-risk rows when NO_DEDUPE, else the new subset
from filter_new_advisories. -/
def pipelineRowsToSend (hs : String → String) (nd : Bool) (rows : List Row)
    (cache : Cache) : List Row :=
  if nd then filter_high_risk rows
  else (filter_new_advisories hs (filter_high_risk rows) cache).1

/-- used_ids of main: [] when NO_DEDUPE, else the keys recorded by
filter_new_advisories. -/
def pipelineUsedIds (hs : String → String) (nd : Bool) (rows : List Row)
    (cache : Cache) : List String :=
  if nd then []
  else (filter_new_advisories hs (filter_high_risk rows) cache).2

/-- The message text main would build, notify_ncsc.py variant. -/
def notifyMessage (hs : String → String) (nd : Bool) (rows : List Row)
    (cache : Cache) : String :=
  notify_build_urgent_message (pipelineRowsToSend hs nd rows cache)

/-- The message text main would build, scraper.py variant. -/
def scraperMessage (hs : String → String) (nd : Bool) (rows : List Row)
    (cache : Cache) : String :=
  scraper_build_urgent_message (pipelineRowsToSend hs nd rows cache)

/-- The dispatch-and-commit tail of notify_ncsc.main, given the outcome of
send_to_telegram and whether requests.post was actually reached (cfgd).
`if ok:` guards mark_sent; an escaped exception crashes the run with the
cache untouched. -/
def notifyStep (hs : String → String) (now : Int) (used : List String) (msg : String)
    (cache : Cache) : Except String (Bool × String) → Bool → RunResult
  | Except.error e, _ => ⟨cache, [Event.dispatch msg], Outcome.crashed e⟩
  | Except.ok (true, _), _ =>
    ⟨mark_sent hs now used msg cache, [Event.dispatch msg, Event.commit used msg],
     Outcome.exited 0⟩
  | Except.ok (false, _), cfgd =>
    ⟨cache, if cfgd then [Event.dispatch msg] else [], Outcome.exited 0⟩

/-- The body of notify_ncsc.main once a CSV is present. -/
def notifyMainRows (hs : String → String) (cfg : TgConfig) (nd : Bool) (now : Int)
    (rows : List Row) (tr : TransportResult) (cache : Cache) : RunResult :=
  if filter_high_risk rows = [] then ⟨cache, [], Outcome.exited 0⟩
  else if pipelineRowsToSend hs nd rows cache = [] then ⟨cache, [], Outcome.exited 0⟩
  else if nd = false ∧ is_same_message hs (notifyMessage hs nd rows cache) cache = true then
    ⟨cache, [], Outcome.exited 0⟩
  else
    notifyStep hs now (pipelineUsedIds hs nd rows cache) (notifyMessage hs nd rows cache)
      cache (notify_send_to_telegram cfg tr) (tgConfigured cfg)

/-- main from notify_ncsc.py.  csv is the latest daily CSV content (none
when no CSV exists); cache is the loaded persisted store; tr describes the
transport; nd is NO_DEDUPE; now is the commit timestamp.  A dispatch event
is emitted exactly when requests.post is reached (credentials configured);
mark_sent runs only under `if ok:`.  An exception from send_to_telegram is
uncaught in this variant and crashes the run before any cache write. -/
def notifyMain (hs : String → String) (cfg : TgConfig) (nd : Bool) (now : Int)
    (csv : Option (List Row)) (tr : TransportResult) (cache : Cache) : RunResult :=
  match csv with
  | none => ⟨cache, [], Outcome.exited 0⟩
  | some rows => notifyMainRows hs cfg nd now rows tr cache

/-- The dispatch-and-commit tail of scraper.main: the commit guard is
`if ok and not NO_DEDUPE:`. -/
def scraperStep (hs : String → String) (nd : Bool) (now : Int) (used : List String)
    (msg : String) (cache : Cache) : Except String (Bool × String) → Bool → RunResult
  | Except.error e, _ => ⟨cache, [Event.dispatch msg], Outcome.crashed e⟩
  | Except.ok (true, _), _ =>
    if nd then ⟨cache, [Event.dispatch msg], Outcome.exited 0⟩
    else
      ⟨mark_sent hs now used msg cache, [Event.dispatch msg, Event.commit used msg],
       Outcome.exited 0⟩
  | Except.ok (false, _), cfgd =>
    ⟨cache, if cfgd then [Event.dispatch msg] else [], Outcome.exited 0⟩

/-- main from scraper.py.  rows is the freshly fetched CSV content (fetched
= rows.length; a fetch yielding 0 entries exits early).  The commit guard
here is `if ok and not NO_DEDUPE:`; send_to_telegram never throws in this
variant, so the error branch is unreachable but kept for the Except type. -/
def scraperMain (hs : String → String) (cfg : TgConfig) (nd : Bool) (now : Int)
    (rows : List Row) (tr : TransportResult) (cache : Cache) : RunResult :=
  if rows = [] then ⟨cache, [], Outcome.exited 0⟩
  else if filter_high_risk rows = [] then ⟨cache, [], Outcome.exited 0⟩
  else if pipelineRowsToSend hs nd rows cache = [] then ⟨cache, [], Outcome.exited 0⟩
  else if nd = false ∧ is_same_message hs (scraperMessage hs nd rows cache) cache = true then
    ⟨cache, [], Outcome.exited 0⟩
  else
    scraperStep hs nd now (pipelineUsedIds hs nd rows cache) (scraperMessage hs nd rows cache)
      cache (scraper_send_to_telegram cfg tr) (tgConfigured cfg)

/-- A JSON value, as json.loads may return it: the persisted store content
is not validated against the cache shape anywhere in load_cache. -/
inductive Jval where
  | jnull
  | jbool (b : Bool)
  | jnum (n : Int)
  | jstr (s : String)
  | jarr (elems : List Jval)
  | jobj (fields : List (String × Jval))

/-- State of the persisted store file as load_cache observes it: missing,
present but json.loads raises, or present with a parsed JSON value. -/
inductive Store where
  | absent
  | unreadable
  | parsed (v : Jval)

/-- The fresh-empty cache document that load_cache builds. -/
def emptyCacheJ : Jval :=
  Jval.jobj [("advisory_ids", Jval.jobj []), ("last_message_hash", Jval.jnull),
             ("version", Jval.jnum 1)]

/-- load_cache from dedupe.py: a missing file and a json.loads failure both
yield the fresh-empty document; a parseable file is returned verbatim,
whatever JSON value it holds. -/
def load_cache : Store → Jval
  | Store.absent => emptyCacheJ
  | Store.unreadable => emptyCacheJ
  | Store.parsed v => v

/-- Concrete stand-in for the sha256 hexdigest when evaluating runs on
concrete inputs (any function of the right type instantiates hs). -/
def idDigest : String → String := fun s => s

/-- A configured Telegram environment. -/
def cfgSet : TgConfig := ⟨"token", "chat"⟩

/-- The empty initialized cache. -/
def emptyCache : Cache := ⟨[], none, 1⟩

/-- A high-risk row whose key is already in cacheSeen. -/
def rowSeen : Row :=
  [("AdvisoryID", "NCSC-2025-0001"), ("Severity", "H/H"), ("Description", "Oude melding"), ("Link", "")]

/-- A high-risk row whose key is new. -/
def rowNew : Row :=
  [("AdvisoryID", "NCSC-2025-0002"), ("Severity", "H/H"), ("Description", "Nieuwe melding"), ("Link", "")]

/-- A cache that already contains rowSeen's key. -/
def cacheSeen : Cache := ⟨[("NCSC-2025-0001", 50)], none, 1⟩

/-- A committed run offered one already-seen and one new high-risk record. -/
def c2run : RunResult :=
  notifyMain idDigest cfgSet false 100 (some [rowSeen, rowNew]) (TransportResult.resp 200 "") cacheSeen

/-- A high-risk row whose AdvisoryID is whitespace-only: tier 1 returns the
stripped value "", which downstream code treats as no key. -/
def rowBlankId : Row :=
  [("AdvisoryID", " "), ("Severity", "H/H"), ("Description", "Melding zonder sleutel")]

/-- A high-risk row with a normal tracking identifier. -/
def rowKeyed : Row :=
  [("AdvisoryID", "NCSC-2025-0003"), ("Severity", "H/H"), ("Description", "Melding met sleutel")]

/-- First run over the two-row snapshot, dispatch succeeds, commit runs. -/
def c3run1 : RunResult :=
  notifyMain idDigest cfgSet false 100 (some [rowBlankId, rowKeyed]) (TransportResult.resp 200 "") emptyCache

/-- Second run over the identical snapshot, starting from the committed cache. -/
def c3run2 : RunResult :=
  notifyMain idDigest cfgSet false 200 (some [rowBlankId, rowKeyed]) (TransportResult.resp 200 "") c3run1.cache

/-- A 4000-character advisory URL driving the composed text over the cap. -/
def bigUrl : String := String.mk (List.replicate 4000 'u')

/-- A high-risk row whose link makes the composed message exceed 3900
characters. -/
def cap1Row : Row := [("Severity", "H/H"), ("Description", "x"), ("Link", bigUrl)]

/-- The over-cap snapshot: one row suffices. -/
def cap1Rows : List Row := [cap1Row]

/-- A run of notify_ncsc.main with NO_DEDUPE=1 and a successful dispatch. -/
def c6run : RunResult :=
  notifyMain idDigest cfgSet true 100 (some [rowKeyed]) (TransportResult.resp 200 "") emptyCache

/-- A record with none of the tier-1 fields and no embedded NCSC id. -/
def rowBare : Row := [("Severity", "x")]

example : pyStrip "  a b " = "a b" := by decide
example : sevSearch "[H/H]" = true := by decide
example : sevSearch "Med/High" = true := by decide
example : sevSearch "L/L" = false := by decide
example : idSearch "zie ncsc-2025-0042 hier" = some "NCSC-2025-0042" := by decide
example : directKey [("AdvisoryID", "  ")] = some "" := by decide
example :
    advisory_key (fun s => s) [("Severity", "x")] = some "HASH:|||||" := by decide

lemma strData_append (s t : String) : (s ++ t).data = s.data ++ t.data := rfl

lemma dictGet_dictSet_self (d : List (String × Int)) (k : String) (v : Int) :
    dictGet (dictSet d k v) k = some v := by
  induction d with
  | nil => simp [dictSet, dictGet]
  | cons kv rest ih =>
    obtain ⟨k', v'⟩ := kv
    by_cases h : k' = k
    · simp [dictSet, h, dictGet]
    · simp [dictSet, h, dictGet, ih]

lemma dictGet_dictSet_ne (d : List (String × Int)) (k k' : String) (v : Int)
    (h : k' ≠ k) : dictGet (dictSet d k' v) k = dictGet d k := by
  induction d with
  | nil => simp [dictSet, dictGet, h]
  | cons kv rest ih =>
    obtain ⟨k0, v0⟩ := kv
    by_cases h0 : k0 = k'
    · subst h0
      simp [dictSet, dictGet, h]
    · simp only [dictSet, if_neg h0]
      by_cases hk : k0 = k
      · simp [dictGet, hk]
      · simp [dictGet, hk, ih]

lemma markFold_preserve (now : Int) (k : String) :
    ∀ (ks : List String) (d : List (String × Int)), dictGet d k = some now →
      dictGet (ks.foldl (fun d' k' => if k' = "" then d' else dictSet d' k' now) d) k = some now := by
  intro ks
  induction ks with
  | nil => intro d h; simpa using h
  | cons k0 rest ih =>
    intro d h
    simp only [List.foldl_cons]
    by_cases h0 : k0 = ""
    · rw [if_pos h0]; exact ih d h
    · rw [if_neg h0]
      apply ih
      by_cases hk : k0 = k
      · subst hk; exact dictGet_dictSet_self d k0 now
      · rw [dictGet_dictSet_ne d k k0 now hk]; exact h

lemma markFold_mem (now : Int) (k : String) (hne : ¬(k = "")) :
    ∀ (ks : List String) (d : List (String × Int)), k ∈ ks →
      dictGet (ks.foldl (fun d' k' => if k' = "" then d' else dictSet d' k' now) d) k = some now := by
  intro ks
  induction ks with
  | nil => intro d h; cases h
  | cons k0 rest ih =>
    intro d hmem
    simp only [List.foldl_cons]
    rcases List.mem_cons.mp hmem with heq | hmem'
    · subst heq
      rw [if_neg hne]
      exact markFold_preserve now k rest _ (dictGet_dictSet_self d k now)
    · by_cases h0 : k0 = ""
      · rw [if_pos h0]; exact ih d hmem'
      · rw [if_neg h0]; exact ih _ hmem'

lemma dictGet_filter_keep (c : Int) :
    ∀ (d : List (String × Int)) (k : String) (v : Int),
      dictGet d k = some v → c ≤ v →
      dictGet (d.filter (fun kv => decide (c ≤ kv.2))) k = some v := by
  intro d
  induction d with
  | nil => intro k v h; simp [dictGet] at h
  | cons kv rest ih =>
    obtain ⟨k0, v0⟩ := kv
    intro k v h hv
    by_cases hk : k0 = k
    · subst hk
      simp only [dictGet, if_pos rfl] at h
      injection h with h'
      subst h'
      simp [List.filter, hv, dictGet]
    · simp only [dictGet, if_neg hk] at h
      by_cases hkeep : c ≤ v0
      · simp only [List.filter_cons, decide_eq_true hkeep, if_pos]
        simp [dictGet, hk]
        exact ih k v h hv
      · simp only [List.filter_cons]
        rw [if_neg (by simpa using hkeep)]
        exact ih k v h hv

lemma mark_sent_get (hs : String → String) (now : Int) (used : List String)
    (msg : String) (cache : Cache) (k : String) (hk : k ∈ used) (hne : ¬(k = "")) :
    dictGet (mark_sent hs now used msg cache).advisory_ids k = some now := by
  unfold mark_sent save_cache
  apply dictGet_filter_keep
  · exact markFold_mem now k hne used cache.advisory_ids hk
  · have h0 : (0:Int) ≤ CACHE_TTL_DAYS * 86400 := by norm_num [CACHE_TTL_DAYS]
    omega

lemma truthyKey_some_ne (hs : String → String) (r : Row) (k : String)
    (h : truthyKey hs r = some k) : ¬(k = "") := by
  cases hak : advisory_key hs r with
  | none => simp only [truthyKey, hak] at h; cases h
  | some k' =>
    simp only [truthyKey, hak] at h
    by_cases hk' : k' = ""
    · rw [if_pos hk'] at h; cases h
    · rw [if_neg hk'] at h
      injection h with h2
      rw [← h2]
      exact hk'

lemma filterNewGo_used_eq (hs : String → String) (seen : List (String × Int)) :
    ∀ rows : List Row, (filterNewGo hs seen rows).2 = rows.filterMap (truthyKey hs) := by
  intro rows
  induction rows with
  | nil => rfl
  | cons r rs ih =>
    simp only [filterNewGo, List.filterMap_cons]
    cases hak : advisory_key hs r with
    | none => simp [truthyKey, hak, ih]
    | some k =>
      by_cases hke : k = ""
      · simp [truthyKey, hak, hke, ih]
      · by_cases hseen : (dictGet seen k).isSome
        · simp [truthyKey, hak, hke, hseen, ih]
        · simp [truthyKey, hak, hke, hseen, ih]

lemma filterNewGo_falsy_mem (hs : String → String) (seen : List (String × Int)) :
    ∀ (rows : List Row) (r : Row), r ∈ rows → truthyKey hs r = none →
      r ∈ (filterNewGo hs seen rows).1 := by
  intro rows
  induction rows with
  | nil => intro r hr; cases hr
  | cons r0 rs ih =>
    intro r hr hk
    rcases List.mem_cons.mp hr with heq | hr'
    · subst heq
      cases hak : advisory_key hs r with
      | none => simp [filterNewGo, hak]
      | some k =>
        simp only [truthyKey, hak] at hk
        by_cases hke : k = ""
        · simp [filterNewGo, hak, hke]
        · rw [if_neg hke] at hk; cases hk
    · have hmem := ih r hr' hk
      simp only [filterNewGo]
      cases hak : advisory_key hs r0 with
      | none => simpa using Or.inr hmem
      | some k =>
        by_cases hke : k = ""
        · simp only [hke, if_pos rfl]
          simpa using Or.inr hmem
        · by_cases hseen : (dictGet seen k).isSome
          · simp [hke, hseen, hmem]
          · simp only [if_neg hke, hseen, if_pos rfl]
            simpa using Or.inr hmem

lemma filterNewGo_nil (hs : String → String) (seen : List (String × Int)) :
    ∀ rows : List Row,
      (∀ r ∈ rows, ∃ k, truthyKey hs r = some k ∧ (dictGet seen k).isSome = true) →
      (filterNewGo hs seen rows).1 = [] := by
  intro rows
  induction rows with
  | nil => intro _; rfl
  | cons r0 rs ih =>
    intro h
    obtain ⟨k, hk, hseen⟩ := h r0 (List.mem_cons_self r0 rs)
    have hrest := ih (fun r hr => h r (List.mem_cons_of_mem r0 hr))
    cases hak : advisory_key hs r0 with
    | none => simp only [truthyKey, hak] at hk; cases hk
    | some k' =>
      simp only [truthyKey, hak] at hk
      by_cases hke : k' = ""
      · rw [if_pos hke] at hk; cases hk
      · rw [if_neg hke] at hk
        injection hk with hkk
        subst hkk
        simp [filterNewGo, hak, hke, hseen, hrest]

/-- Claim C4: retention invariant — after save_cache (and hence after the
save inside every mark_sent commit) the persisted advisory_ids map contains
no entry with timestamp older than now minus 30 days, and entries at or
after the cutoff are preserved. -/
theorem C4_retention (hs : String → String) (now : Int) (used : List String)
    (msg : String) (cache : Cache) :
    (∀ k v, (k, v) ∈ (save_cache now cache).advisory_ids → now - 30 * 86400 ≤ v)
    ∧ (∀ k v, (k, v) ∈ cache.advisory_ids → now - 30 * 86400 ≤ v →
        (k, v) ∈ (save_cache now cache).advisory_ids)
    ∧ (∀ k v, (k, v) ∈ (mark_sent hs now used msg cache).advisory_ids →
        now - 30 * 86400 ≤ v) := by
  refine ⟨?_, ?_, ?_⟩
  · intro k v hmem
    unfold save_cache at hmem
    simp only [List.mem_filter] at hmem
    have h2 := hmem.2
    simpa [CACHE_TTL_DAYS] using h2
  · intro k v hmem hv
    unfold save_cache
    simp only [List.mem_filter]
    exact ⟨hmem, by simpa [CACHE_TTL_DAYS] using hv⟩
  · intro k v hmem
    unfold mark_sent save_cache at hmem
    simp only [List.mem_filter] at hmem
    have h2 := hmem.2
    simpa [CACHE_TTL_DAYS] using h2

/-- Witness for C4 at a concrete cache: the entry ("k", 5) survives a save
at now = 0 and its timestamp is at or after the cutoff. -/
theorem C4_retention_witness :
    ("k", (5:Int)) ∈ (save_cache 0 ⟨[("k", 5)], none, 1⟩).advisory_ids
    ∧ ((0:Int) - 30 * 86400 ≤ 5) := by
  constructor
  · decide
  · exact (C4_retention idDigest 0 [] "" ⟨[("k", 5)], none, 1⟩).1 "k" 5 (by decide)

/-- Claim C9 (amended): load_cache never raises; a missing store and a
store json.loads cannot parse both yield the empty initialized cache
document {advisory_ids: {}, last_message_hash: null, version: 1}; but a
parseable store is returned verbatim, whatever JSON value it holds, with
no validation against the cache shape. -/
theorem C9_load_amended (v : Jval) :
    load_cache Store.absent =
      Jval.jobj [("advisory_ids", Jval.jobj []), ("last_message_hash", Jval.jnull),
                 ("version", Jval.jnum 1)]
    ∧ load_cache Store.unreadable =
      Jval.jobj [("advisory_ids", Jval.jobj []), ("last_message_hash", Jval.jnull),
                 ("version", Jval.jnum 1)]
    ∧ load_cache (Store.parsed v) = v :=
  ⟨rfl, rfl, rfl⟩

/-- Counterexample for C9 as stated: a readable store holding the JSON
array [] is a malformed cache document, yet load_cache returns the array
itself, not the empty initialized cache, and the result is not a cache
value at all. -/
theorem C9_load_counterexample :
    load_cache (Store.parsed (Jval.jarr [])) = Jval.jarr []
    ∧ Jval.jarr [] ≠ emptyCacheJ :=
  ⟨rfl, fun h => Jval.noConfusion h⟩

/-- Claim C10: the identity resolver is total on string-keyed records — the
fallback signature always contains the five "|" separators, so it is never
empty and advisory_key never returns none; when neither a direct tracking
field nor an embedded pattern yields a key, the result is the tagged
16-character prefix of the digest of the signature. -/
theorem C10_resolver_total (hs : String → String) (r : Row) :
    (advisory_key hs r).isSome = true
    ∧ signature r ≠ ""
    ∧ (directKey r = none → patternKey r = none →
        advisory_key hs r = some ("HASH:" ++ pyTake (hs (signature r)) 16)) := by
  have hsig : signature r ≠ "" := by
    intro h
    have hd := congrArg String.data h
    unfold signature at hd
    simp only [strData_append] at hd
    simp at hd
  refine ⟨?_, hsig, ?_⟩
  · unfold advisory_key
    cases directKey r with
    | some k => simp
    | none =>
      cases patternKey r with
      | some k => simp
      | none => simp [hsig]
  · intro h1 h2
    simp [advisory_key, h1, h2, hsig]

/-- Witness for C10 at a record with no tier-1 field and no embedded NCSC
identifier: the key is resolved through the fingerprint fallback. -/
theorem C10_resolver_total_witness :
    directKey rowBare = none ∧ patternKey rowBare = none
    ∧ advisory_key idDigest rowBare =
        some ("HASH:" ++ pyTake (idDigest (signature rowBare)) 16) := by
  refine ⟨by decide, by decide, ?_⟩
  exact (C10_resolver_total idDigest rowBare).2.2 (by decide) (by decide)

/-- Claim C7: if the joined fallback signature is empty the resolver
returns no key (this is the literal tier-3 guard; by C10 the antecedent
never fires because the join carries its separators), and every record
whose key is falsy — None or the empty string — is always placed in the
new set by filter_new_advisories, regardless of the cache contents. -/
theorem C7_unkeyed_always_new (hs : String → String) (rows : List Row) (cache : Cache)
    (r : Row) (hr : r ∈ rows) (hk : truthyKey hs r = none) :
    r ∈ (filter_new_advisories hs rows cache).1
    ∧ (directKey r = none → patternKey r = none → signature r = "" →
        advisory_key hs r = none) := by
  constructor
  · exact filterNewGo_falsy_mem hs cache.advisory_ids rows r hr hk
  · intro h1 h2 h3
    simp [advisory_key, h1, h2, h3]

/-- Witness for C7: a whitespace-only AdvisoryID strips to the empty
string, the record has no truthy key, and it stays in the new set even
against a populated cache. -/
theorem C7_unkeyed_always_new_witness :
    truthyKey idDigest rowBlankId = none
    ∧ rowBlankId ∈ (filter_new_advisories idDigest [rowBlankId] cacheSeen).1 := by
  refine ⟨by decide, ?_⟩
  exact (C7_unkeyed_always_new idDigest [rowBlankId] cacheSeen rowBlankId (by decide)
    (by decide)).1

/-- Claim C8 (amended): the scraper variant of send_to_telegram is total —
non-success responses and transport exceptions are both converted into a
returned failure pair, never thrown — and the Teams retry loop likewise
consumes bad responses and exceptions as retries; but the notify_ncsc.py
variant of send_to_telegram, which has no try/except, converts only
non-success responses into failure pairs and lets a transport exception
propagate to the caller. -/
theorem C8_dispatcher_amended (cfg : TgConfig) (s : Int) (body m : String)
    (attempts : List TransportResult) (lastErr : Option String) :
    (∀ tr, isThrow (scraper_send_to_telegram cfg tr) = false)
    ∧ (tgConfigured cfg = true →
        scraper_send_to_telegram cfg (TransportResult.exc m) = Except.ok (false, "exception"))
    ∧ (tgConfigured cfg = true → ¬(s = 200) →
        notify_send_to_telegram cfg (TransportResult.resp s body) =
          Except.ok (false, "Telegram error " ++ toString s ++ ": " ++ body))
    ∧ (tgConfigured cfg = true →
        notify_send_to_telegram cfg (TransportResult.exc m) = Except.error m)
    ∧ teamsLoop (TransportResult.exc m :: attempts) lastErr = teamsLoop attempts (some m)
    ∧ (¬(s = 200) → teamsLoop (TransportResult.resp s body :: attempts) lastErr =
        teamsLoop attempts (some ("HTTP " ++ toString s ++ ": " ++ pyTake body 300))) := by
  refine ⟨?_, ?_, ?_, ?_, ?_, ?_⟩
  · intro tr
    unfold scraper_send_to_telegram isThrow
    by_cases hc : cfg.token = "" || cfg.chatId = ""
    · simp [hc]
    · cases tr with
      | resp st b =>
        by_cases h200 : st = 200
        · simp [hc, h200]
        · simp [hc, h200]
      | exc em => simp [hc]
  · intro hcfg
    have hc : (cfg.token = "" || cfg.chatId = "") = false := by
      simpa [tgConfigured] using hcfg
    simp [scraper_send_to_telegram, hc]
  · intro hcfg h200
    have hc : (cfg.token = "" || cfg.chatId = "") = false := by
      simpa [tgConfigured] using hcfg
    simp [notify_send_to_telegram, hc, h200]
  · intro hcfg
    have hc : (cfg.token = "" || cfg.chatId = "") = false := by
      simpa [tgConfigured] using hcfg
    simp [notify_send_to_telegram, hc]
  · rfl
  · intro h200
    simp [teamsLoop, h200]

/-- Witness for C8 (amended): with credentials configured, the scraper
variant turns an exception into a failure pair while the notify variant
rethrows it. -/
theorem C8_dispatcher_amended_witness :
    isThrow (scraper_send_to_telegram cfgSet (TransportResult.exc "boom")) = false
    ∧ notify_send_to_telegram cfgSet (TransportResult.exc "boom") = Except.error "boom" := by
  refine ⟨(C8_dispatcher_amended cfgSet 500 "b" "boom" [] none).1 (TransportResult.exc "boom"), ?_⟩
  exact (C8_dispatcher_amended cfgSet 500 "b" "boom" [] none).2.2.2.1 (by decide)

/-- Counterexample for C8 as stated: a transport exception inside the
notify_ncsc.py send_to_telegram escapes to the caller instead of being
returned as a failure pair. -/
theorem C8_dispatcher_counterexample :
    isThrow (notify_send_to_telegram cfgSet (TransportResult.exc "timeout")) = true := by
  decide

/-- Claim C5 (amended): when the composed text (header plus joined bullets)
exceeds 3900 characters, both builder variants return exactly its first
3900 characters — the output length is exactly 3900, but no ellipsis
marker is appended at the cap by the plain slice; a composed text at or
under the cap is returned untruncated. -/
theorem C5_message_cap_amended (rows : List Row) :
    (3900 < pyLen (notifyComposed rows) →
        pyLen (notify_build_urgent_message rows) = 3900
        ∧ notify_build_urgent_message rows = pyTake (notifyComposed rows) 3900)
    ∧ (pyLen (notifyComposed rows) ≤ 3900 →
        notify_build_urgent_message rows = notifyComposed rows)
    ∧ (3900 < pyLen (scraperComposed rows) →
        pyLen (scraper_build_urgent_message rows) = 3900)
    ∧ (pyLen (scraperComposed rows) ≤ 3900 →
        scraper_build_urgent_message rows = scraperComposed rows) := by
  refine ⟨fun h => ⟨?_, rfl⟩, fun h => ?_, fun h => ?_, fun h => ?_⟩
  · unfold notify_build_urgent_message pyTake pyLen
    unfold pyLen at h
    change ((notifyComposed rows).data.take 3900).length = 3900
    rw [List.length_take]
    omega
  · unfold notify_build_urgent_message pyTake
    unfold pyLen at h
    rw [List.take_of_length_le h]
  · unfold scraper_build_urgent_message pyTake pyLen
    unfold pyLen at h
    change ((scraperComposed rows).data.take 3900).length = 3900
    rw [List.length_take]
    omega
  · unfold scraper_build_urgent_message pyTake
    unfold pyLen at h
    rw [List.take_of_length_le h]

lemma bigUrl_data : bigUrl.data = List.replicate 4000 'u' := rfl

lemma pyLen_bigUrl : pyLen bigUrl = 4000 := by
  unfold pyLen
  rw [bigUrl_data, List.length_replicate]

lemma bigUrl_ne_empty : ¬(bigUrl = "") := by
  intro h
  have hd := congrArg pyLen h
  rw [pyLen_bigUrl] at hd
  have h0 : pyLen "" = 0 := rfl
  rw [h0] at hd
  omega

lemma cap1_line : rowLine notifyUrl cap1Row =
    "• <b>[H/H]</b> — x" ++ "\n  🔗 <a href='" ++ bigUrl ++ "'>Bekijk advisory</a>" := by
  have hurl : notifyUrl cap1Row = bigUrl := by
    have h1 : rowGetD cap1Row "Link" "" = bigUrl := rfl
    unfold notifyUrl
    rw [h1]
    unfold pyOr
    rw [if_neg bigUrl_ne_empty]
  unfold rowLine
  rw [show pyOr (rowGetD cap1Row "Severity" "") "?" = "H/H" from by decide]
  rw [show pyOr (rowGetD cap1Row "Description" "") "Onbekende melding" = "x" from by decide]
  rw [hurl]
  unfold advisoryLine
  rw [if_neg bigUrl_ne_empty]
  rw [show advisoryLineBase "H/H" "x" = "• <b>[H/H]</b> — x" from by decide]

lemma cap1_composed : notifyComposed cap1Rows =
    urgentHeader ++
      ("• <b>[H/H]</b> — x" ++ "\n  🔗 <a href='" ++ bigUrl ++ "'>Bekijk advisory</a>") := by
  unfold notifyComposed cap1Rows
  rw [show List.map (rowLine notifyUrl) [cap1Row] = [rowLine notifyUrl cap1Row] from rfl]
  rw [cap1_line]
  rfl

lemma cap1_data : (notifyComposed cap1Rows).data =
    "🚨😡 <b>URGENT</b>\n\nDetails:\n• <b>[H/H]</b> — x\n  🔗 <a href='".data ++
      (List.replicate 4000 'u' ++ "'>Bekijk advisory</a>".data) := by
  rw [cap1_composed]
  simp only [strData_append, List.append_assoc]
  rw [bigUrl_data]
  rw [← List.append_assoc, ← List.append_assoc]
  congr 1

lemma cap1_len : pyLen (notifyComposed cap1Rows) = 4080 := by
  unfold pyLen
  rw [cap1_data]
  simp only [List.length_append, List.length_replicate]
  decide

lemma cap1_build_data : (notify_build_urgent_message cap1Rows).data =
    "🚨😡 <b>URGENT</b>\n\nDetails:\n• <b>[H/H]</b> — x\n  🔗 <a href='".data ++
      List.replicate 3841 'u' := by
  unfold notify_build_urgent_message pyTake
  show (notifyComposed cap1Rows).data.take 3900 = _
  rw [cap1_data]
  rw [List.take_append_eq_append_take]
  rw [List.take_of_length_le (by decide)]
  rw [show (3900:Nat) - "🚨😡 <b>URGENT</b>\n\nDetails:\n• <b>[H/H]</b> — x\n  🔗 <a href='".data.length
      = 3841 from by decide]
  rw [List.take_append_eq_append_take]
  rw [List.take_replicate]
  rw [show min 3841 4000 = 3841 from by decide]
  rw [List.length_replicate]
  rw [show (3841:Nat) - 4000 = 0 from by decide]
  rw [List.take_zero, List.append_nil]

lemma getLast?_replicate_succ (a : Char) : ∀ n : Nat, (List.replicate (n + 1) a).getLast? = some a := by
  intro n
  induction n with
  | zero => rfl
  | succ m ih =>
    rw [List.replicate_succ, List.replicate_succ, List.getLast?_cons_cons, ← List.replicate_succ]
    exact ih

lemma cap1_last : (notify_build_urgent_message cap1Rows).data.getLast? = some 'u' := by
  rw [cap1_build_data]
  rw [List.getLast?_append_of_ne_nil]
  · rw [show (3841:Nat) = 3840 + 1 from rfl]
    exact getLast?_replicate_succ 'u' 3840
  · apply List.ne_nil_of_length_pos
    rw [List.length_replicate]
    omega

/-- Counterexample for C5 as stated: a record whose link drives the
composed text to 4080 characters; the builder output is exactly 3900
characters long but its last character is a plain URL character, not the
ellipsis marker. -/
theorem C5_message_cap_counterexample :
    3900 < pyLen (notifyComposed cap1Rows)
    ∧ pyLen (notify_build_urgent_message cap1Rows) = 3900
    ∧ (notify_build_urgent_message cap1Rows).data.getLast? ≠ some '…' := by
  refine ⟨by rw [cap1_len]; omega, ?_, ?_⟩
  · unfold pyLen
    rw [cap1_build_data]
    simp only [List.length_append, List.length_replicate]
    decide
  · rw [cap1_last]
    decide

/-- Witness for C5 (amended) at the same concrete over-cap input. -/
theorem C5_message_cap_amended_witness :
    3900 < pyLen (notifyComposed cap1Rows)
    ∧ pyLen (notify_build_urgent_message cap1Rows) = 3900 := by
  have hover : 3900 < pyLen (notifyComposed cap1Rows) := by
    rw [cap1_len]
    omega
  exact ⟨hover, ((C5_message_cap_amended cap1Rows).1 hover).1⟩

/-- Claim C1: the cache is mutated only after a successful dispatch.  In
both main variants, when send_to_telegram does not return success the run
never commits and the persisted cache (advisory_ids and last_message_hash)
is returned unchanged — so a rerun with the same rows is offered the same
records; and whenever a commit event occurs, the trace is exactly a
dispatch of the delivered message followed by the commit. -/
theorem C1_commit_after_dispatch (hs : String → String) (cfg : TgConfig) (nd : Bool)
    (now : Int) (csv : Option (List Row)) (tr : TransportResult) (cache : Cache) :
    (sendSucceeded (notify_send_to_telegram cfg tr) = false →
        (notifyMain hs cfg nd now csv tr cache).cache = cache
        ∧ hasCommitB (notifyMain hs cfg nd now csv tr cache).events = false)
    ∧ (∀ ks m, Event.commit ks m ∈ (notifyMain hs cfg nd now csv tr cache).events →
        (notifyMain hs cfg nd now csv tr cache).events = [Event.dispatch m, Event.commit ks m])
    ∧ (∀ rows, sendSucceeded (scraper_send_to_telegram cfg tr) = false →
        (scraperMain hs cfg nd now rows tr cache).cache = cache
        ∧ hasCommitB (scraperMain hs cfg nd now rows tr cache).events = false)
    ∧ (∀ rows ks m, Event.commit ks m ∈ (scraperMain hs cfg nd now rows tr cache).events →
        (scraperMain hs cfg nd now rows tr cache).events =
          [Event.dispatch m, Event.commit ks m]) := by
  refine ⟨?_, ?_, ?_, ?_⟩
  · intro hfail
    cases csv with
    | none => exact ⟨rfl, rfl⟩
    | some rows =>
      have hM : notifyMain hs cfg nd now (some rows) tr cache =
          notifyMainRows hs cfg nd now rows tr cache := rfl
      rw [hM]
      unfold notifyMainRows
      by_cases h1 : filter_high_risk rows = []
      · rw [if_pos h1]; exact ⟨rfl, rfl⟩
      · rw [if_neg h1]
        by_cases h2 : pipelineRowsToSend hs nd rows cache = []
        · rw [if_pos h2]; exact ⟨rfl, rfl⟩
        · rw [if_neg h2]
          by_cases h3 : nd = false ∧ is_same_message hs (notifyMessage hs nd rows cache) cache = true
          · rw [if_pos h3]; exact ⟨rfl, rfl⟩
          · rw [if_neg h3]
            cases hsend : notify_send_to_telegram cfg tr with
            | error e => exact ⟨rfl, rfl⟩
            | ok p =>
              obtain ⟨b, s⟩ := p
              cases b with
              | true =>
                rw [hsend] at hfail
                simp [sendSucceeded] at hfail
              | false =>
                refine ⟨rfl, ?_⟩
                cases hcfg : tgConfigured cfg <;> simp [notifyStep, hcfg, hasCommitB]
  · intro ks m hmem
    revert hmem
    cases csv with
    | none => intro hmem; cases hmem
    | some rows =>
      have hM : notifyMain hs cfg nd now (some rows) tr cache =
          notifyMainRows hs cfg nd now rows tr cache := rfl
      rw [hM]
      unfold notifyMainRows
      by_cases h1 : filter_high_risk rows = []
      · rw [if_pos h1]; intro hmem; cases hmem
      · rw [if_neg h1]
        by_cases h2 : pipelineRowsToSend hs nd rows cache = []
        · rw [if_pos h2]; intro hmem; cases hmem
        · rw [if_neg h2]
          by_cases h3 : nd = false ∧ is_same_message hs (notifyMessage hs nd rows cache) cache = true
          · rw [if_pos h3]; intro hmem; cases hmem
          · rw [if_neg h3]
            cases hsend : notify_send_to_telegram cfg tr with
            | error e => intro hmem; simp [notifyStep] at hmem
            | ok p =>
              obtain ⟨b, s⟩ := p
              cases b with
              | true =>
                intro hmem
                unfold notifyStep at hmem ⊢
                simp only [List.mem_cons, List.mem_singleton] at hmem
                rcases hmem with hmem | hmem | hmem
                · cases hmem
                · injection hmem with hks hm
                  subst hks
                  subst hm
                  rfl
                · cases hmem
              | false =>
                cases hcfg : tgConfigured cfg <;>
                  · intro hmem
                    simp [notifyStep, hcfg] at hmem
  · intro rows hfail
    unfold scraperMain
    by_cases h0 : rows = []
    · rw [if_pos h0]; exact ⟨rfl, rfl⟩
    · rw [if_neg h0]
      by_cases h1 : filter_high_risk rows = []
      · rw [if_pos h1]; exact ⟨rfl, rfl⟩
      · rw [if_neg h1]
        by_cases h2 : pipelineRowsToSend hs nd rows cache = []
        · rw [if_pos h2]; exact ⟨rfl, rfl⟩
        · rw [if_neg h2]
          by_cases h3 : nd = false ∧ is_same_message hs (scraperMessage hs nd rows cache) cache = true
          · rw [if_pos h3]; exact ⟨rfl, rfl⟩
          · rw [if_neg h3]
            cases hsend : scraper_send_to_telegram cfg tr with
            | error e => exact ⟨rfl, rfl⟩
            | ok p =>
              obtain ⟨b, s⟩ := p
              cases b with
              | true =>
                rw [hsend] at hfail
                simp [sendSucceeded] at hfail
              | false =>
                refine ⟨rfl, ?_⟩
                cases hcfg : tgConfigured cfg <;> simp [scraperStep, hcfg, hasCommitB]
  · intro rows ks m hmem
    revert hmem
    unfold scraperMain
    by_cases h0 : rows = []
    · rw [if_pos h0]; intro hmem; cases hmem
    · rw [if_neg h0]
      by_cases h1 : filter_high_risk rows = []
      · rw [if_pos h1]; intro hmem; cases hmem
      · rw [if_neg h1]
        by_cases h2 : pipelineRowsToSend hs nd rows cache = []
        · rw [if_pos h2]; intro hmem; cases hmem
        · rw [if_neg h2]
          by_cases h3 : nd = false ∧ is_same_message hs (scraperMessage hs nd rows cache) cache = true
          · rw [if_pos h3]; intro hmem; cases hmem
          · rw [if_neg h3]
            cases hsend : scraper_send_to_telegram cfg tr with
            | error e => intro hmem; simp [scraperStep] at hmem
            | ok p =>
              obtain ⟨b, s⟩ := p
              cases b with
              | true =>
                cases nd with
                | true => intro hmem; simp [scraperStep] at hmem
                | false =>
                  intro hmem
                  unfold scraperStep at hmem ⊢
                  simp only [if_neg Bool.false_ne_true] at hmem ⊢
                  simp only [List.mem_cons, List.mem_singleton] at hmem
                  rcases hmem with hmem | hmem | hmem
                  · cases hmem
                  · injection hmem with hks hm
                    subst hks
                    subst hm
                    rfl
                  · cases hmem
              | false =>
                cases hcfg : tgConfigured cfg <;>
                  · intro hmem
                    simp [scraperStep, hcfg] at hmem

/-- Witness for C1 at a failing transport response: the run leaves the
cache untouched and never commits. -/
theorem C1_commit_after_dispatch_witness :
    sendSucceeded (notify_send_to_telegram cfgSet (TransportResult.resp 500 "err")) = false
    ∧ (notifyMain idDigest cfgSet false 100 (some [rowKeyed])
        (TransportResult.resp 500 "err") emptyCache).cache = emptyCache
    ∧ hasCommitB (notifyMain idDigest cfgSet false 100 (some [rowKeyed])
        (TransportResult.resp 500 "err") emptyCache).events = false := by
  have h := (C1_commit_after_dispatch idDigest cfgSet false 100 (some [rowKeyed])
    (TransportResult.resp 500 "err") emptyCache).1 (by decide)
  exact ⟨by decide, h.1, h.2⟩

/-- Claim C2 (amended): in a committed dedupe-enabled run, the key list
stamped by mark_sent is exactly the truthy identity keys of ALL high-risk
records offered to the dedupe filter — including records whose key was
already in the cache and which were therefore filtered out of the
delivered message (their timestamps are refreshed). -/
theorem C2_stamped_keys_amended (hs : String → String) (cfg : TgConfig) (now : Int)
    (csv : Option (List Row)) (tr : TransportResult) (cache : Cache)
    (ks : List String) (m : String)
    (hc : Event.commit ks m ∈ (notifyMain hs cfg false now csv tr cache).events) :
    ∃ rows, csv = some rows
      ∧ ks = (filter_high_risk rows).filterMap (truthyKey hs) := by
  revert hc
  cases csv with
  | none => intro hc; cases hc
  | some rows =>
    have hM : notifyMain hs cfg false now (some rows) tr cache =
        notifyMainRows hs cfg false now rows tr cache := rfl
    rw [hM]
    unfold notifyMainRows
    by_cases h1 : filter_high_risk rows = []
    · rw [if_pos h1]; intro hc; cases hc
    · rw [if_neg h1]
      by_cases h2 : pipelineRowsToSend hs false rows cache = []
      · rw [if_pos h2]; intro hc; cases hc
      · rw [if_neg h2]
        by_cases h3 : is_same_message hs (notifyMessage hs false rows cache) cache = true
        · rw [if_pos ⟨rfl, h3⟩]; intro hc; cases hc
        · rw [if_neg (fun hh => h3 hh.2)]
          cases hsend : notify_send_to_telegram cfg tr with
          | error e => intro hc; simp [notifyStep] at hc
          | ok p =>
            obtain ⟨b, s⟩ := p
            cases b with
            | false =>
              cases hcfg : tgConfigured cfg <;>
                · intro hc
                  simp [notifyStep, hcfg] at hc
            | true =>
              intro hc
              unfold notifyStep at hc
              simp only [List.mem_cons, List.mem_singleton] at hc
              rcases hc with hc | hc | hc
              · cases hc
              · injection hc with hks hm
                refine ⟨rows, rfl, ?_⟩
                rw [hks]
                have hp : pipelineUsedIds hs false rows cache =
                    (filterNewGo hs cache.advisory_ids (filter_high_risk rows)).2 := rfl
                rw [hp, filterNewGo_used_eq]
              · cases hc

/-- Witness for C2 (amended) at a committed concrete run: the stamped keys
are the truthy keys of both offered high-risk records. -/
theorem C2_stamped_keys_amended_witness :
    Event.commit ["NCSC-2025-0001", "NCSC-2025-0002"]
        (notifyMessage idDigest false [rowSeen, rowNew] cacheSeen) ∈ c2run.events
    ∧ ∃ rows, (some [rowSeen, rowNew] : Option (List Row)) = some rows
        ∧ ["NCSC-2025-0001", "NCSC-2025-0002"] =
            (filter_high_risk rows).filterMap (truthyKey idDigest) := by
  refine ⟨by decide, ?_⟩
  exact C2_stamped_keys_amended idDigest cfgSet 100 (some [rowSeen, rowNew])
    (TransportResult.resp 200 "") cacheSeen ["NCSC-2025-0001", "NCSC-2025-0002"]
    (notifyMessage idDigest false [rowSeen, rowNew] cacheSeen) (by decide)

/-- Counterexample for C2 as stated: with rowSeen's key already cached, the
delivered message contains only rowNew (key NCSC-2025-0002), yet the
commit stamps NCSC-2025-0001 as well — a key of a record filtered out of
the message. -/
theorem C2_stamped_keys_counterexample :
    commitKeys c2run.events = [["NCSC-2025-0001", "NCSC-2025-0002"]]
    ∧ (filter_new_advisories idDigest (filter_high_risk [rowSeen, rowNew]) cacheSeen).1 = [rowNew]
    ∧ truthyKey idDigest rowNew = some "NCSC-2025-0002"
    ∧ ¬("NCSC-2025-0001" ∈ ["NCSC-2025-0002"]) := by
  refine ⟨by decide, by decide, by decide, by decide⟩

/-- Claim C3 (amended): idempotence of a committed run holds for snapshots
in which every high-risk record yields a truthy identity key.  After a
first dedupe-enabled run over such a snapshot commits, a second run over
the identical snapshot produces no events at all — in particular zero
dispatches.  (A record whose key strips to the empty string defeats this:
it is re-offered every run; see the counterexample.) -/
theorem C3_idempotence_amended (hs : String → String) (cfg : TgConfig)
    (now1 now2 : Int) (rows : List Row) (tr1 tr2 : TransportResult) (cache : Cache)
    (hkeys : ∀ r ∈ filter_high_risk rows, truthyKey hs r ≠ none)
    (hc : hasCommitB (notifyMain hs cfg false now1 (some rows) tr1 cache).events = true) :
    (notifyMain hs cfg false now2 (some rows) tr2
      (notifyMain hs cfg false now1 (some rows) tr1 cache).cache).events = [] := by
  have hM1 : notifyMain hs cfg false now1 (some rows) tr1 cache =
      notifyMainRows hs cfg false now1 rows tr1 cache := rfl
  rw [hM1] at hc ⊢
  unfold notifyMainRows at hc
  by_cases h1 : filter_high_risk rows = []
  · rw [if_pos h1] at hc; simp [hasCommitB] at hc
  rw [if_neg h1] at hc
  by_cases h2 : pipelineRowsToSend hs false rows cache = []
  · rw [if_pos h2] at hc; simp [hasCommitB] at hc
  rw [if_neg h2] at hc
  by_cases h3 : is_same_message hs (notifyMessage hs false rows cache) cache = true
  · rw [if_pos ⟨rfl, h3⟩] at hc; simp [hasCommitB] at hc
  rw [if_neg (fun hh => h3 hh.2)] at hc
  cases hsend : notify_send_to_telegram cfg tr1 with
  | error e =>
    rw [hsend] at hc
    simp [notifyStep, hasCommitB] at hc
  | ok p =>
    obtain ⟨b, s⟩ := p
    cases b with
    | false =>
      rw [hsend] at hc
      cases hcfg : tgConfigured cfg <;> rw [hcfg] at hc <;>
        simp [notifyStep, hasCommitB] at hc
    | true =>
      have hcache1 : (notifyMainRows hs cfg false now1 rows tr1 cache).cache =
          mark_sent hs now1 (pipelineUsedIds hs false rows cache)
            (notifyMessage hs false rows cache) cache := by
        unfold notifyMainRows
        rw [if_neg h1, if_neg h2, if_neg (fun hh => h3 hh.2), hsend]
        rfl
      rw [hcache1]
      have hM2 : notifyMain hs cfg false now2 (some rows) tr2
          (mark_sent hs now1 (pipelineUsedIds hs false rows cache)
            (notifyMessage hs false rows cache) cache) =
          notifyMainRows hs cfg false now2 rows tr2
          (mark_sent hs now1 (pipelineUsedIds hs false rows cache)
            (notifyMessage hs false rows cache) cache) := rfl
      rw [hM2]
      have hnil : pipelineRowsToSend hs false rows
          (mark_sent hs now1 (pipelineUsedIds hs false rows cache)
            (notifyMessage hs false rows cache) cache) = [] := by
        have hps : pipelineRowsToSend hs false rows
            (mark_sent hs now1 (pipelineUsedIds hs false rows cache)
              (notifyMessage hs false rows cache) cache) =
            (filterNewGo hs
              (mark_sent hs now1 (pipelineUsedIds hs false rows cache)
                (notifyMessage hs false rows cache) cache).advisory_ids
              (filter_high_risk rows)).1 := rfl
        rw [hps]
        apply filterNewGo_nil
        intro r hr
        cases htk : truthyKey hs r with
        | none => exact absurd htk (hkeys r hr)
        | some k =>
          refine ⟨k, rfl, ?_⟩
          have hkne : ¬(k = "") := truthyKey_some_ne hs r k htk
          have hkused : k ∈ pipelineUsedIds hs false rows cache := by
            have hp : pipelineUsedIds hs false rows cache =
                (filterNewGo hs cache.advisory_ids (filter_high_risk rows)).2 := rfl
            rw [hp, filterNewGo_used_eq]
            exact List.mem_filterMap.mpr ⟨r, hr, htk⟩
          have hget := mark_sent_get hs now1 (pipelineUsedIds hs false rows cache)
            (notifyMessage hs false rows cache) cache k hkused hkne
          rw [hget]
          rfl
      unfold notifyMainRows
      rw [if_neg h1, if_pos hnil]

/-- Witness for C3 (amended) on a fully keyed one-record snapshot: the
first run commits and the rerun produces no events. -/
theorem C3_idempotence_amended_witness :
    (∀ r ∈ filter_high_risk [rowKeyed], truthyKey idDigest r ≠ none)
    ∧ hasCommitB (notifyMain idDigest cfgSet false 100 (some [rowKeyed])
        (TransportResult.resp 200 "") emptyCache).events = true
    ∧ (notifyMain idDigest cfgSet false 200 (some [rowKeyed]) (TransportResult.resp 200 "")
        (notifyMain idDigest cfgSet false 100 (some [rowKeyed])
          (TransportResult.resp 200 "") emptyCache).cache).events = [] := by
  refine ⟨by decide, by decide, ?_⟩
  exact C3_idempotence_amended idDigest cfgSet 100 200 [rowKeyed]
    (TransportResult.resp 200 "") (TransportResult.resp 200 "") emptyCache
    (by decide) (by decide)

/-- Counterexample for C3 as stated: a snapshot holding one whitespace-only
AdvisoryID record (whose key strips to "") and one normally keyed record.
The first run classifies both, dispatches and commits; the second run over
the identical snapshot dispatches again, because the unkeyed record is
always treated as new and the reduced message no longer matches the stored
last-message digest. -/
theorem C3_idempotence_counterexample :
    hasCommitB c3run1.events = true ∧ hasDispatchB c3run2.events = true := by
  exact ⟨by decide, by decide⟩

/-- Claim C6 (amended): with NO_DEDUPE active, both variants send the full
classified high-risk set and never consult the duplicate-message guard
(dispatch happens for any cache state whenever there are high-risk rows
and credentials are configured).  The scraper variant then skips the
commit entirely, leaving the cache unchanged; but the notify variant still
invokes mark_sent with an empty key list on success, so no advisory key is
stamped, yet the persisted store changes: entries are retention-pruned and
last_message_hash is set to the digest of the sent message. -/
theorem C6_bypass_amended (hs : String → String) (cfg : TgConfig) (now : Int)
    (rows : List Row) (tr : TransportResult) (cache : Cache) :
    (filter_high_risk rows ≠ [] → tgConfigured cfg = true →
        Event.dispatch (notify_build_urgent_message (filter_high_risk rows))
          ∈ (notifyMain hs cfg true now (some rows) tr cache).events)
    ∧ (sendSucceeded (notify_send_to_telegram cfg tr) = true → filter_high_risk rows ≠ [] →
        (notifyMain hs cfg true now (some rows) tr cache).cache =
          ⟨cache.advisory_ids.filter (fun kv => decide (now - CACHE_TTL_DAYS * 86400 ≤ kv.2)),
           some (hs (notify_build_urgent_message (filter_high_risk rows))), cache.version⟩)
    ∧ (scraperMain hs cfg true now rows tr cache).cache = cache
    ∧ (rows ≠ [] → filter_high_risk rows ≠ [] → tgConfigured cfg = true →
        Event.dispatch (scraper_build_urgent_message (filter_high_risk rows))
          ∈ (scraperMain hs cfg true now rows tr cache).events) := by
  have hps : pipelineRowsToSend hs true rows cache = filter_high_risk rows := rfl
  refine ⟨?_, ?_, ?_, ?_⟩
  · intro hne hcfg
    have hM : notifyMain hs cfg true now (some rows) tr cache =
        notifyMainRows hs cfg true now rows tr cache := rfl
    rw [hM]
    unfold notifyMainRows
    rw [if_neg hne]
    rw [if_neg (show ¬(pipelineRowsToSend hs true rows cache = []) from
      fun hh => hne (by rw [← hps]; exact hh))]
    rw [if_neg (show ¬(true = false ∧
        is_same_message hs (notifyMessage hs true rows cache) cache = true) from
      fun hh => by simp at hh)]
    cases hsend : notify_send_to_telegram cfg tr with
    | error e => exact List.mem_singleton.mpr rfl
    | ok p =>
      obtain ⟨b, s⟩ := p
      cases b with
      | true => exact List.mem_cons_self _ _
      | false =>
        have hev : (notifyStep hs now (pipelineUsedIds hs true rows cache)
            (notifyMessage hs true rows cache) cache (Except.ok (false, s))
            (tgConfigured cfg)).events =
            if tgConfigured cfg then
              [Event.dispatch (notifyMessage hs true rows cache)] else [] := rfl
        rw [hev, if_pos hcfg]
        exact List.mem_singleton.mpr rfl
  · intro hok hne
    have hM : notifyMain hs cfg true now (some rows) tr cache =
        notifyMainRows hs cfg true now rows tr cache := rfl
    rw [hM]
    unfold notifyMainRows
    rw [if_neg hne]
    rw [if_neg (show ¬(pipelineRowsToSend hs true rows cache = []) from
      fun hh => hne (by rw [← hps]; exact hh))]
    rw [if_neg (show ¬(true = false ∧
        is_same_message hs (notifyMessage hs true rows cache) cache = true) from
      fun hh => by simp at hh)]
    cases hsend : notify_send_to_telegram cfg tr with
    | error e =>
      rw [hsend] at hok
      simp [sendSucceeded] at hok
    | ok p =>
      obtain ⟨b, s⟩ := p
      cases b with
      | false =>
        rw [hsend] at hok
        simp [sendSucceeded] at hok
      | true => rfl
  · unfold scraperMain
    by_cases h0 : rows = []
    · rw [if_pos h0]
    · rw [if_neg h0]
      by_cases h1 : filter_high_risk rows = []
      · rw [if_pos h1]
      · rw [if_neg h1]
        by_cases h2 : pipelineRowsToSend hs true rows cache = []
        · rw [if_pos h2]
        · rw [if_neg h2]
          rw [if_neg (show ¬(true = false ∧
              is_same_message hs (scraperMessage hs true rows cache) cache = true) from
            fun hh => by simp at hh)]
          cases hsend : scraper_send_to_telegram cfg tr with
          | error e => rfl
          | ok p =>
            obtain ⟨b, s⟩ := p
            cases b with
            | true => rfl
            | false => rfl
  · intro h0 hne hcfg
    unfold scraperMain
    rw [if_neg h0, if_neg hne]
    rw [if_neg (show ¬(pipelineRowsToSend hs true rows cache = []) from
      fun hh => hne (by rw [← hps]; exact hh))]
    rw [if_neg (show ¬(true = false ∧
        is_same_message hs (scraperMessage hs true rows cache) cache = true) from
      fun hh => by simp at hh)]
    cases hsend : scraper_send_to_telegram cfg tr with
    | error e => exact List.mem_singleton.mpr rfl
    | ok p =>
      obtain ⟨b, s⟩ := p
      cases b with
      | true => exact List.mem_singleton.mpr rfl
      | false =>
        have hev : (scraperStep hs true now (pipelineUsedIds hs true rows cache)
            (scraperMessage hs true rows cache) cache (Except.ok (false, s))
            (tgConfigured cfg)).events =
            if tgConfigured cfg then
              [Event.dispatch (scraperMessage hs true rows cache)] else [] := rfl
        rw [hev, if_pos hcfg]
        exact List.mem_singleton.mpr rfl

/-- Witness for C6 (amended): under the bypass, the notify run dispatches
the full classified set and the scraper run leaves the cache untouched. -/
theorem C6_bypass_amended_witness :
    Event.dispatch (notify_build_urgent_message (filter_high_risk [rowKeyed]))
      ∈ (notifyMain idDigest cfgSet true 100 (some [rowKeyed])
          (TransportResult.resp 200 "") emptyCache).events
    ∧ (scraperMain idDigest cfgSet true 100 [rowKeyed]
        (TransportResult.resp 200 "") emptyCache).cache = emptyCache := by
  refine ⟨?_, (C6_bypass_amended idDigest cfgSet 100 [rowKeyed]
    (TransportResult.resp 200 "") emptyCache).2.2.1⟩
  exact (C6_bypass_amended idDigest cfgSet 100 [rowKeyed]
    (TransportResult.resp 200 "") emptyCache).1 (by decide) (by decide)

/-- Counterexample for C6 as stated: a successful NO_DEDUPE notify run
still reaches mark_sent (a commit event with an empty key list) and the
persisted cache changes — its last_message_hash is updated. -/
theorem C6_bypass_counterexample :
    hasCommitB c6run.events = true ∧ ¬(c6run.cache = emptyCache) := by
  exact ⟨by decide, by decide⟩
